import Mathlib

/-!
Shallow embedding of the circuit-breaker library (src/src/circuit-breaker.ts).

The TypeScript class CircuitBreaker is modelled as a record of its fields;
each method becomes a pure function.  Methods that read the wall clock
(Date.now()) take an explicit argument now : Int.  Methods that mutate the
breaker return the updated record; methods that emit events additionally
return the list of events emitted, in order.  JavaScript numbers holding
counters and timestamps are modelled as Int, with Math.max written out
explicitly.  The registry class CircuitBreakerManager is modelled with an
association list standing for its Map, so that instance identity is the
identity of the stored entry.
-/

/-- The CircuitState enum from types.ts (values used in circuit-breaker.ts). -/
inductive CircuitState where
  | CLOSED
  | OPEN
  | HALF_OPEN
deriving DecidableEq, Repr

/-- The CircuitBreakerConfig record: failureThreshold, recoveryTimeout,
halfOpenAttempts. -/
structure CircuitBreakerConfig where
  failureThreshold : Int
  recoveryTimeout : Int
  halfOpenAttempts : Int
deriving DecidableEq, Repr

/-- The events a breaker can emit, with their payloads as built in
circuit-breaker.ts (CircuitOpenedEvent, CircuitClosedEvent,
CircuitHalfOpenEvent, and the reset payload). -/
inductive CircuitEvent where
  | opened (agentName : String) (failureCount : Int) (threshold : Int)
  | closed (agentName : String) (successCount : Int)
  | halfOpen (agentName : String) (attemptNumber : Int)
  | reset (agentName : String)
deriving DecidableEq, Repr

/-- The mutable fields of the CircuitBreaker class together with its
constructor arguments. -/
structure CircuitBreaker where
  state : CircuitState
  failureCount : Int
  successCount : Int
  lastFailureTime : Int
  halfOpenAttempts : Int
  config : CircuitBreakerConfig
  agentName : String
deriving DecidableEq, Repr

namespace CircuitBreaker

/-- The constructor: field initializers of the class
(state = CLOSED, all counters 0) plus the two constructor arguments. -/
def new (agentName : String) (config : CircuitBreakerConfig) : CircuitBreaker :=
  { state := CircuitState.CLOSED
    failureCount := 0
    successCount := 0
    lastFailureTime := 0
    halfOpenAttempts := 0
    config := config
    agentName := agentName }

/-- private shouldAttemptRecovery(): now - lastFailureTime >= recoveryTimeout. -/
def shouldAttemptRecovery (b : CircuitBreaker) (now : Int) : Bool :=
  decide (b.config.recoveryTimeout ≤ now - b.lastFailureTime)

/-- private transitionToOpen(): guarded by state !== OPEN; sets state to OPEN,
resets halfOpenAttempts, emits the opened event. -/
def transitionToOpen (b : CircuitBreaker) : CircuitBreaker × List CircuitEvent :=
  if b.state ≠ CircuitState.OPEN then
    ({ b with state := CircuitState.OPEN, halfOpenAttempts := 0 },
     [CircuitEvent.opened b.agentName b.failureCount b.config.failureThreshold])
  else
    (b, [])

/-- private transitionToClosed(): guarded by state !== CLOSED; sets state to
CLOSED, resets failureCount and halfOpenAttempts, emits the closed event. -/
def transitionToClosed (b : CircuitBreaker) : CircuitBreaker × List CircuitEvent :=
  if b.state ≠ CircuitState.CLOSED then
    ({ b with state := CircuitState.CLOSED, failureCount := 0, halfOpenAttempts := 0 },
     [CircuitEvent.closed b.agentName b.successCount])
  else
    (b, [])

/-- private transitionToHalfOpen(): if state !== HALF_OPEN, sets state to
HALF_OPEN, resets halfOpenAttempts to 0 and emits the half-open event with
attemptNumber 0; then, unconditionally, increments halfOpenAttempts. -/
def transitionToHalfOpen (b : CircuitBreaker) : CircuitBreaker × List CircuitEvent :=
  let step :=
    if b.state ≠ CircuitState.HALF_OPEN then
      ({ b with state := CircuitState.HALF_OPEN, halfOpenAttempts := 0 },
       [CircuitEvent.halfOpen b.agentName 0])
    else
      (b, [])
  ({ step.1 with halfOpenAttempts := step.1.halfOpenAttempts + 1 }, step.2)

/-- canExecute(): CLOSED permits; OPEN transitions to half-open and permits
when the recovery timeout elapsed, otherwise denies; HALF_OPEN permits while
halfOpenAttempts < config.halfOpenAttempts, without touching the counter. -/
def canExecute (b : CircuitBreaker) (now : Int) :
    Bool × CircuitBreaker × List CircuitEvent :=
  match b.state with
  | CircuitState.CLOSED => (true, b, [])
  | CircuitState.OPEN =>
      if b.shouldAttemptRecovery now then
        let r := b.transitionToHalfOpen
        (true, r.1, r.2)
      else
        (false, b, [])
  | CircuitState.HALF_OPEN =>
      (decide (b.halfOpenAttempts < b.config.halfOpenAttempts), b, [])

/-- recordSuccess(): increments successCount; in HALF_OPEN transitions to
closed; in CLOSED sets failureCount to Math.max(0, failureCount - 1). -/
def recordSuccess (b : CircuitBreaker) : CircuitBreaker × List CircuitEvent :=
  let b1 := { b with successCount := b.successCount + 1 }
  if b1.state = CircuitState.HALF_OPEN then
    b1.transitionToClosed
  else if b1.state = CircuitState.CLOSED then
    ({ b1 with failureCount := max 0 (b1.failureCount - 1) }, [])
  else
    (b1, [])

/-- recordFailure(): increments failureCount and stamps lastFailureTime with
now; in HALF_OPEN transitions to open; in CLOSED transitions to open when
failureCount >= failureThreshold. -/
def recordFailure (b : CircuitBreaker) (now : Int) :
    CircuitBreaker × List CircuitEvent :=
  let b1 := { b with failureCount := b.failureCount + 1, lastFailureTime := now }
  if b1.state = CircuitState.HALF_OPEN then
    b1.transitionToOpen
  else if b1.state = CircuitState.CLOSED then
    if b1.config.failureThreshold ≤ b1.failureCount then
      b1.transitionToOpen
    else
      (b1, [])
  else
    (b1, [])

/-- reset(): sets state to CLOSED, zeroes every counter and lastFailureTime,
and emits the reset event unconditionally. -/
def reset (b : CircuitBreaker) : CircuitBreaker × List CircuitEvent :=
  ({ b with state := CircuitState.CLOSED, failureCount := 0, successCount := 0,
            halfOpenAttempts := 0, lastFailureTime := 0 },
   [CircuitEvent.reset b.agentName])

/-- getConfig(): returns the object spread of config, a field-by-field copy. -/
def getConfig (b : CircuitBreaker) : CircuitBreakerConfig :=
  { failureThreshold := b.config.failureThreshold
    recoveryTimeout := b.config.recoveryTimeout
    halfOpenAttempts := b.config.halfOpenAttempts }

/-- The Partial CircuitBreakerConfig argument of setConfig: each field
optionally present. -/
structure PartialCircuitBreakerConfig where
  failureThreshold : Option Int := none
  recoveryTimeout : Option Int := none
  halfOpenAttempts : Option Int := none
deriving DecidableEq, Repr

/-- setConfig(): spread-merges the partial config over the current one;
present fields overwrite, absent fields keep the current value. -/
def setConfig (b : CircuitBreaker) (p : PartialCircuitBreakerConfig) :
    CircuitBreaker :=
  { b with config :=
    { failureThreshold := p.failureThreshold.getD b.config.failureThreshold
      recoveryTimeout := p.recoveryTimeout.getD b.config.recoveryTimeout
      halfOpenAttempts := p.halfOpenAttempts.getD b.config.halfOpenAttempts } }

/-- The record returned by getStatus(). -/
structure Status where
  state : CircuitState
  failureCount : Int
  successCount : Int
  canExecute : Bool
deriving DecidableEq, Repr

/-- getStatus(): object literal reading state, failureCount, successCount and
then calling this.canExecute(), whose side effects carry over. -/
def getStatus (b : CircuitBreaker) (now : Int) :
    Status × CircuitBreaker × List CircuitEvent :=
  let r := b.canExecute now
  ({ state := b.state, failureCount := b.failureCount,
     successCount := b.successCount, canExecute := r.1 },
   r.2.1, r.2.2)

end CircuitBreaker

/-- The CircuitBreakerManager class: its Map from agent name to breaker is
modelled as an association list (insertion order, unique names), plus the
default configuration. -/
structure CircuitBreakerManager where
  breakers : List (String × CircuitBreaker)
  defaultConfig : CircuitBreakerConfig
deriving DecidableEq, Repr

namespace CircuitBreakerManager

/-- The constructor: empty map, given default config. -/
def new (defaultConfig : CircuitBreakerConfig) : CircuitBreakerManager :=
  { breakers := [], defaultConfig := defaultConfig }

/-- getBreaker(agentName, config?): returns the stored breaker when the map
has one for the name; otherwise constructs one with config || defaultConfig,
stores it, and returns it. -/
def getBreaker (m : CircuitBreakerManager) (agentName : String)
    (config : Option CircuitBreakerConfig) :
    CircuitBreaker × CircuitBreakerManager :=
  match m.breakers.find? (fun p => p.1 == agentName) with
  | some p => (p.2, m)
  | none =>
      let breaker := CircuitBreaker.new agentName (config.getD m.defaultConfig)
      (breaker, { m with breakers := m.breakers ++ [(agentName, breaker)] })

/-- removeBreaker(agentName): deletes the entry, returns whether one existed. -/
def removeBreaker (m : CircuitBreakerManager) (agentName : String) :
    Bool × CircuitBreakerManager :=
  match m.breakers.find? (fun p => p.1 == agentName) with
  | some _ => (true, { m with breakers := m.breakers.filter (fun p => p.1 != agentName) })
  | none => (false, m)

end CircuitBreakerManager

/-- Runs recordFailure once per timestamp in the list, left to right,
discarding events: the state reached by a sequence of consecutive failures. -/
def runFailures (b : CircuitBreaker) : List Int → CircuitBreaker
  | [] => b
  | t :: ts => runFailures (b.recordFailure t).1 ts

/-- A sample configuration: threshold 5, recovery 1000 ms, 3 half-open probes. -/
def sampleConfig : CircuitBreakerConfig :=
  { failureThreshold := 5, recoveryTimeout := 1000, halfOpenAttempts := 3 }

/-- The concrete scenario configuration from the spec: threshold 2,
recovery 1000 ms, 1 half-open probe. -/
def sampleConfig2 : CircuitBreakerConfig :=
  { failureThreshold := 2, recoveryTimeout := 1000, halfOpenAttempts := 1 }

/-- A breaker sitting in OPEN with lastFailureTime 0 under sampleConfig. -/
def sampleOpenBreaker : CircuitBreaker :=
  { state := CircuitState.OPEN, failureCount := 5, successCount := 0,
    lastFailureTime := 0, halfOpenAttempts := 0, config := sampleConfig,
    agentName := "a" }

/-- A breaker sitting in HALF_OPEN just after the transition consumed the
first probe slot (halfOpenAttempts = 1) under sampleConfig. -/
def sampleHalfOpenBreaker : CircuitBreaker :=
  { state := CircuitState.HALF_OPEN, failureCount := 5, successCount := 0,
    lastFailureTime := 0, halfOpenAttempts := 1, config := sampleConfig,
    agentName := "a" }

section Helpers

/-- A failure recorded while OPEN leaves the state OPEN (no transition runs). -/
theorem recordFailure_open_state (b : CircuitBreaker) (now : Int)
    (hs : b.state = CircuitState.OPEN) :
    (b.recordFailure now).1.state = CircuitState.OPEN := by
  simp [CircuitBreaker.recordFailure, hs]

/-- Any sequence of failures starting from OPEN stays OPEN. -/
theorem runFailures_open_state (ts : List Int) (b : CircuitBreaker)
    (hs : b.state = CircuitState.OPEN) :
    (runFailures b ts).state = CircuitState.OPEN := by
  induction ts generalizing b with
  | nil => simpa [runFailures] using hs
  | cons t ts ih =>
      simpa [runFailures] using ih _ (recordFailure_open_state b t hs)

/-- One failure in CLOSED, strictly below the threshold even after the
increment: counters advance, no transition. -/
theorem recordFailure_closed_below (b : CircuitBreaker) (now : Int)
    (hs : b.state = CircuitState.CLOSED)
    (hlt : b.failureCount + 1 < b.config.failureThreshold) :
    (b.recordFailure now).1 =
      { b with failureCount := b.failureCount + 1, lastFailureTime := now } := by
  have hnot : ¬ b.config.failureThreshold ≤ b.failureCount + 1 := by omega
  simp [CircuitBreaker.recordFailure, hs, hnot]

/-- One failure in CLOSED reaching the threshold transitions to OPEN. -/
theorem recordFailure_closed_reach (b : CircuitBreaker) (now : Int)
    (hs : b.state = CircuitState.CLOSED)
    (hge : b.config.failureThreshold ≤ b.failureCount + 1) :
    (b.recordFailure now).1.state = CircuitState.OPEN := by
  simp [CircuitBreaker.recordFailure, CircuitBreaker.transitionToOpen, hs, hge]

/-- Failures in CLOSED that keep the counter strictly below the threshold
leave the breaker CLOSED and advance failureCount by the number of failures,
with the configuration untouched. -/
theorem runFailures_closed_lt (ts : List Int) (b : CircuitBreaker)
    (hs : b.state = CircuitState.CLOSED)
    (hlt : b.failureCount + ts.length < b.config.failureThreshold) :
    (runFailures b ts).state = CircuitState.CLOSED ∧
    (runFailures b ts).failureCount = b.failureCount + ts.length := by
  induction ts generalizing b with
  | nil => simpa [runFailures] using hs
  | cons t ts ih =>
      simp only [List.length_cons, Nat.cast_add, Nat.cast_one] at hlt
      have hlt1 : b.failureCount + 1 < b.config.failureThreshold := by
        have hnn : (0 : Int) ≤ (ts.length : Int) := Int.natCast_nonneg _
        omega
      have hstep := recordFailure_closed_below b t hs hlt1
      have hrec := ih (b.recordFailure t).1 (by rw [hstep]; exact hs)
        (by rw [hstep]
            show b.failureCount + 1 + (ts.length : Int) < b.config.failureThreshold
            omega)
      rw [runFailures]
      refine ⟨hrec.1, ?_⟩
      rw [hrec.2, hstep]
      show b.failureCount + 1 + (ts.length : Int) = b.failureCount + ((t :: ts).length : Int)
      simp only [List.length_cons, Nat.cast_add, Nat.cast_one]
      ring

/-- A nonempty run of failures in CLOSED whose length reaches the remaining
distance to the threshold ends OPEN. -/
theorem runFailures_closed_ge (ts : List Int) (b : CircuitBreaker)
    (hs : b.state = CircuitState.CLOSED)
    (hne : ts ≠ [])
    (hge : b.config.failureThreshold ≤ b.failureCount + ts.length) :
    (runFailures b ts).state = CircuitState.OPEN := by
  induction ts generalizing b with
  | nil => exact absurd rfl hne
  | cons t ts ih =>
      by_cases hth : b.config.failureThreshold ≤ b.failureCount + 1
      · have hopen := recordFailure_closed_reach b t hs hth
        rw [runFailures]
        exact runFailures_open_state ts _ hopen
      · have hlt1 : b.failureCount + 1 < b.config.failureThreshold := by omega
        have hstep := recordFailure_closed_below b t hs hlt1
        simp only [List.length_cons, Nat.cast_add, Nat.cast_one] at hge
        have hne2 : ts ≠ [] := by
          intro hnil
          subst hnil
          simp at hge
          omega
        rw [runFailures]
        refine ih (b.recordFailure t).1 (by rw [hstep]; exact hs) hne2 ?_
        rw [hstep]
        show b.config.failureThreshold ≤ b.failureCount + 1 + (ts.length : Int)
        omega

/-- find? skips a prefix on which it returns none. -/
theorem find?_append_of_none {α : Type} (p : α → Bool) (l₁ l₂ : List α)
    (h : l₁.find? p = none) : (l₁ ++ l₂).find? p = l₂.find? p := by
  induction l₁ with
  | nil => simp
  | cons x l ih =>
      cases hx : p x with
      | true => simp [List.find?, hx] at h
      | false =>
          simp only [List.cons_append, List.find?, hx] at h ⊢
          exact ih h

end Helpers

/-- C3: from a fresh CLOSED breaker (failureCount 0, positive threshold),
recording failureThreshold consecutive failures with no intervening successes
reaches OPEN, and recording failureThreshold - 1 such failures leaves CLOSED. -/
theorem C3_threshold_failures (b : CircuitBreaker) (ts : List Int)
    (hs : b.state = CircuitState.CLOSED)
    (hf : b.failureCount = 0)
    (hpos : 1 ≤ b.config.failureThreshold) :
    ((ts.length : Int) = b.config.failureThreshold →
      (runFailures b ts).state = CircuitState.OPEN) ∧
    ((ts.length : Int) = b.config.failureThreshold - 1 →
      (runFailures b ts).state = CircuitState.CLOSED) := by
  constructor
  · intro hlen
    have hne : ts ≠ [] := by
      intro hnil
      subst hnil
      simp at hlen
      omega
    exact runFailures_closed_ge ts b hs hne (by omega)
  · intro hlen
    exact (runFailures_closed_lt ts b hs (by omega)).1

/-- C3 witness: threshold 2; two failures open the breaker, one leaves it
closed. -/
theorem C3_threshold_failures_witness :
    (runFailures (CircuitBreaker.new "a" sampleConfig2) [0, 0]).state =
      CircuitState.OPEN ∧
    (runFailures (CircuitBreaker.new "a" sampleConfig2) [0]).state =
      CircuitState.CLOSED :=
  ⟨(C3_threshold_failures (CircuitBreaker.new "a" sampleConfig2) [0, 0]
      rfl rfl (by decide)).1 (by decide),
   (C3_threshold_failures (CircuitBreaker.new "a" sampleConfig2) [0]
      rfl rfl (by decide)).2 (by decide)⟩

/-- C4: while OPEN, a permission query strictly before the recovery timeout
denies and leaves the breaker untouched; a query once the timeout elapsed
permits and moves the breaker to HALF_OPEN. -/
theorem C4_open_query_timing (b : CircuitBreaker) (now : Int)
    (hs : b.state = CircuitState.OPEN) :
    (now - b.lastFailureTime < b.config.recoveryTimeout →
      (b.canExecute now).1 = false ∧ (b.canExecute now).2.1 = b) ∧
    (b.config.recoveryTimeout ≤ now - b.lastFailureTime →
      (b.canExecute now).1 = true ∧
      (b.canExecute now).2.1.state = CircuitState.HALF_OPEN) := by
  constructor
  · intro hlt
    have hrec : b.shouldAttemptRecovery now = false := by
      simp [CircuitBreaker.shouldAttemptRecovery]
      omega
    simp [CircuitBreaker.canExecute, hs, hrec]
  · intro hge
    have hrec : b.shouldAttemptRecovery now = true := by
      simp [CircuitBreaker.shouldAttemptRecovery]
      omega
    simp [CircuitBreaker.canExecute, CircuitBreaker.transitionToHalfOpen, hs, hrec]

/-- C4 witness: recovery timeout 1000, last failure at 0: a query at 999
denies and leaves the breaker alone, a query at 1000 permits and lands in
HALF_OPEN. -/
theorem C4_open_query_timing_witness :
    ((sampleOpenBreaker.canExecute 999).1 = false ∧
     (sampleOpenBreaker.canExecute 999).2.1 = sampleOpenBreaker) ∧
    ((sampleOpenBreaker.canExecute 1000).1 = true ∧
     (sampleOpenBreaker.canExecute 1000).2.1.state = CircuitState.HALF_OPEN) :=
  ⟨(C4_open_query_timing sampleOpenBreaker 999 rfl).1 (by decide),
   (C4_open_query_timing sampleOpenBreaker 1000 rfl).2 (by decide)⟩

/-- C5: a success recorded in CLOSED decrements failureCount by 1 floored at
0, keeps it non-negative, and leaves the state CLOSED. -/
theorem C5_success_decrements (b : CircuitBreaker)
    (hs : b.state = CircuitState.CLOSED) :
    (b.recordSuccess).1.failureCount = max 0 (b.failureCount - 1) ∧
    0 ≤ (b.recordSuccess).1.failureCount ∧
    (b.recordSuccess).1.state = CircuitState.CLOSED := by
  refine ⟨?_, ?_, ?_⟩ <;>
    simp [CircuitBreaker.recordSuccess, hs]

/-- C5 witness: the spec example — threshold 5, four failures then one
success gives failureCount 3 with state CLOSED. -/
theorem C5_success_decrements_witness :
    (runFailures (CircuitBreaker.new "e" sampleConfig) [0, 0, 0, 0]).failureCount = 4 ∧
    ((runFailures (CircuitBreaker.new "e" sampleConfig) [0, 0, 0, 0]).recordSuccess).1.failureCount =
      max 0 ((runFailures (CircuitBreaker.new "e" sampleConfig) [0, 0, 0, 0]).failureCount - 1) ∧
    ((runFailures (CircuitBreaker.new "e" sampleConfig) [0, 0, 0, 0]).recordSuccess).1.failureCount = 3 ∧
    ((runFailures (CircuitBreaker.new "e" sampleConfig) [0, 0, 0, 0]).recordSuccess).1.state =
      CircuitState.CLOSED :=
  ⟨by decide,
   (C5_success_decrements _ (by decide)).1,
   by decide,
   (C5_success_decrements _ (by decide)).2.2⟩

/-- C9: the half-open event emitted on the OPEN to HALF_OPEN transition
carries attemptNumber 0 even though the transition leaves halfOpenAttempts
at 1. -/
theorem C9_halfopen_event_attempt_zero (b : CircuitBreaker) (now : Int)
    (hs : b.state = CircuitState.OPEN)
    (hr : b.shouldAttemptRecovery now = true) :
    (b.canExecute now).2.2 = [CircuitEvent.halfOpen b.agentName 0] ∧
    (b.canExecute now).2.1.halfOpenAttempts = 1 := by
  simp [CircuitBreaker.canExecute, CircuitBreaker.transitionToHalfOpen, hs, hr]

/-- C9 witness at the sample OPEN breaker queried after the timeout. -/
theorem C9_halfopen_event_attempt_zero_witness :
    (sampleOpenBreaker.canExecute 1000).2.2 =
      [CircuitEvent.halfOpen sampleOpenBreaker.agentName 0] ∧
    (sampleOpenBreaker.canExecute 1000).2.1.halfOpenAttempts = 1 :=
  C9_halfopen_event_attempt_zero sampleOpenBreaker 1000 rfl (by decide)

/-- C1 counterexample: with halfOpenAttempts = 3, the transition query and
the next three queries all permit (four permits, no success or failure
reported in between), so at most 3 permits before denial is false. -/
theorem C1_counterexample :
    sampleOpenBreaker.config.halfOpenAttempts = 3 ∧
    (sampleOpenBreaker.canExecute 1000).1 = true ∧
    ((sampleOpenBreaker.canExecute 1000).2.1.canExecute 1000).1 = true ∧
    (((sampleOpenBreaker.canExecute 1000).2.1.canExecute 1000).2.1.canExecute
        1000).1 = true ∧
    ((((sampleOpenBreaker.canExecute 1000).2.1.canExecute 1000).2.1.canExecute
        1000).2.1.canExecute 1000).1 = true := by
  decide

/-- C1 amended: a permission query in HALF_OPEN permits exactly while
halfOpenAttempts < config.halfOpenAttempts and leaves the breaker untouched
(the query path never increments the counter); the counter is set to 1 by the
OPEN to HALF_OPEN transition itself, which permits. Queries are therefore
denied only when the counter already reached the limit, not after a number
of permitted queries. -/
theorem C1_halfopen_probe_gate :
    (∀ b : CircuitBreaker, ∀ now : Int, b.state = CircuitState.HALF_OPEN →
      (b.canExecute now).1 =
        decide (b.halfOpenAttempts < b.config.halfOpenAttempts) ∧
      (b.canExecute now).2.1 = b) ∧
    (∀ b : CircuitBreaker, ∀ now : Int, b.state = CircuitState.OPEN →
      b.shouldAttemptRecovery now = true →
      (b.canExecute now).1 = true ∧
      (b.canExecute now).2.1.state = CircuitState.HALF_OPEN ∧
      (b.canExecute now).2.1.halfOpenAttempts = 1) := by
  constructor
  · intro b now hs
    simp [CircuitBreaker.canExecute, hs]
  · intro b now hs hr
    simp [CircuitBreaker.canExecute, CircuitBreaker.transitionToHalfOpen, hs, hr]

/-- C1 amended witness at the sample breakers. -/
theorem C1_halfopen_probe_gate_witness :
    ((sampleHalfOpenBreaker.canExecute 0).1 =
       decide (sampleHalfOpenBreaker.halfOpenAttempts <
         sampleHalfOpenBreaker.config.halfOpenAttempts) ∧
     (sampleHalfOpenBreaker.canExecute 0).2.1 = sampleHalfOpenBreaker) ∧
    ((sampleOpenBreaker.canExecute 1000).1 = true ∧
     (sampleOpenBreaker.canExecute 1000).2.1.state = CircuitState.HALF_OPEN ∧
     (sampleOpenBreaker.canExecute 1000).2.1.halfOpenAttempts = 1) :=
  ⟨C1_halfopen_probe_gate.1 sampleHalfOpenBreaker 0 rfl,
   C1_halfopen_probe_gate.2 sampleOpenBreaker 1000 rfl (by decide)⟩

/-- C2 counterexample: reset on a freshly constructed breaker leaves the
state at CLOSED (no state change) yet emits a reset notification. -/
theorem C2_counterexample :
    ((CircuitBreaker.new "a" sampleConfig).reset).1.state =
      (CircuitBreaker.new "a" sampleConfig).state ∧
    ((CircuitBreaker.new "a" sampleConfig).reset).2 =
      [CircuitEvent.reset "a"] := by
  decide

/-- C2 amended: the opened, closed and half-open notifications are emitted
only when the operation actually changes the state (each transition helper is
guarded by an equality check), but reset emits its reset notification
unconditionally, state change or not. -/
theorem C2_notifications_on_change :
    (∀ b : CircuitBreaker, ∀ now : Int, (b.canExecute now).2.2 ≠ [] →
      (b.canExecute now).2.1.state ≠ b.state) ∧
    (∀ b : CircuitBreaker, (b.recordSuccess).2 ≠ [] →
      (b.recordSuccess).1.state ≠ b.state) ∧
    (∀ b : CircuitBreaker, ∀ now : Int, (b.recordFailure now).2 ≠ [] →
      (b.recordFailure now).1.state ≠ b.state) ∧
    (∀ b : CircuitBreaker, ∀ now : Int, (b.getStatus now).2.2 ≠ [] →
      (b.getStatus now).2.1.state ≠ b.state) ∧
    (∀ b : CircuitBreaker, (b.reset).2 = [CircuitEvent.reset b.agentName]) := by
  have hcan : ∀ b : CircuitBreaker, ∀ now : Int, (b.canExecute now).2.2 ≠ [] →
      (b.canExecute now).2.1.state ≠ b.state := by
    intro b now hne
    cases hst : b.state with
    | CLOSED => simp [CircuitBreaker.canExecute, hst] at hne
    | OPEN =>
        cases hr : b.shouldAttemptRecovery now with
        | true =>
            simp [CircuitBreaker.canExecute,
              CircuitBreaker.transitionToHalfOpen, hst, hr]
        | false => simp [CircuitBreaker.canExecute, hst, hr] at hne
    | HALF_OPEN => simp [CircuitBreaker.canExecute, hst] at hne
  refine ⟨hcan, ?_, ?_, ?_, ?_⟩
  · intro b hne
    cases hst : b.state with
    | CLOSED => simp [CircuitBreaker.recordSuccess, hst] at hne
    | OPEN => simp [CircuitBreaker.recordSuccess, hst] at hne
    | HALF_OPEN =>
        simp [CircuitBreaker.recordSuccess,
          CircuitBreaker.transitionToClosed, hst]
  · intro b now hne
    cases hst : b.state with
    | CLOSED =>
        by_cases hth : b.config.failureThreshold ≤ b.failureCount + 1
        · simp [CircuitBreaker.recordFailure,
            CircuitBreaker.transitionToOpen, hst, hth]
        · simp [CircuitBreaker.recordFailure, hst, hth] at hne
    | OPEN => simp [CircuitBreaker.recordFailure, hst] at hne
    | HALF_OPEN =>
        simp [CircuitBreaker.recordFailure,
          CircuitBreaker.transitionToOpen, hst]
  · intro b now hne
    simp only [CircuitBreaker.getStatus] at hne ⊢
    exact hcan b now hne
  · intro b
    simp [CircuitBreaker.reset]

/-- C2 amended witness: an actual OPEN to HALF_OPEN transition changes the
state (here the emission hypothesis holds), and reset emits unconditionally. -/
theorem C2_notifications_on_change_witness :
    (sampleOpenBreaker.canExecute 1000).2.1.state ≠ sampleOpenBreaker.state ∧
    ((CircuitBreaker.new "w" sampleConfig).reset).2 =
      [CircuitEvent.reset "w"] :=
  ⟨C2_notifications_on_change.1 sampleOpenBreaker 1000 (by decide),
   C2_notifications_on_change.2.2.2.2 (CircuitBreaker.new "w" sampleConfig)⟩

/-- C6 counterexample: canExecute on the sample OPEN breaker after the
timeout enters HALF_OPEN with halfOpenAttempts 1, not 0. -/
theorem C6_counterexample :
    (sampleOpenBreaker.canExecute 1000).2.1.state = CircuitState.HALF_OPEN ∧
    (sampleOpenBreaker.canExecute 1000).2.1.halfOpenAttempts ≠ 0 := by
  decide

/-- C6 amended: entering OPEN (via recordFailure from a non-OPEN state)
leaves halfOpenAttempts at 0, and reset leaves it at 0; entering HALF_OPEN
(via canExecute from OPEN) leaves it at 1, because the transition resets the
counter to 0 and then consumes the first probe slot. -/
theorem C6_entry_counter :
    (∀ b : CircuitBreaker, ∀ now : Int, b.state ≠ CircuitState.OPEN →
      (b.recordFailure now).1.state = CircuitState.OPEN →
      (b.recordFailure now).1.halfOpenAttempts = 0) ∧
    (∀ b : CircuitBreaker, ∀ now : Int, b.state = CircuitState.OPEN →
      (b.canExecute now).2.1.state = CircuitState.HALF_OPEN →
      (b.canExecute now).2.1.halfOpenAttempts = 1) ∧
    (∀ b : CircuitBreaker, (b.reset).1.halfOpenAttempts = 0) := by
  refine ⟨?_, ?_, ?_⟩
  · intro b now hne hopen
    cases hst : b.state with
    | CLOSED =>
        by_cases hth : b.config.failureThreshold ≤ b.failureCount + 1
        · simp [CircuitBreaker.recordFailure,
            CircuitBreaker.transitionToOpen, hst, hth]
        · simp [CircuitBreaker.recordFailure, hst, hth] at hopen
    | OPEN => exact absurd hst hne
    | HALF_OPEN =>
        simp [CircuitBreaker.recordFailure,
          CircuitBreaker.transitionToOpen, hst]
  · intro b now hs hhalf
    cases hr : b.shouldAttemptRecovery now with
    | true =>
        simp [CircuitBreaker.canExecute,
          CircuitBreaker.transitionToHalfOpen, hs, hr]
    | false => simp [CircuitBreaker.canExecute, hs, hr] at hhalf
  · intro b
    simp [CircuitBreaker.reset]

/-- C6 amended witness: a half-open failure re-opens with the counter at 0;
the sample transition into HALF_OPEN leaves the counter at 1. -/
theorem C6_entry_counter_witness :
    (sampleHalfOpenBreaker.recordFailure 5).1.halfOpenAttempts = 0 ∧
    (sampleOpenBreaker.canExecute 1000).2.1.halfOpenAttempts = 1 :=
  ⟨C6_entry_counter.1 sampleHalfOpenBreaker 5 (by decide) (by decide),
   C6_entry_counter.2.1 sampleOpenBreaker 1000 rfl (by decide)⟩

/-- C7: getStatus computes its canExecute field by invoking the permission
query and keeps its side effects: on an OPEN breaker whose recovery timeout
elapsed it transitions the breaker to HALF_OPEN, and in every other situation
it leaves the breaker unchanged. -/
theorem C7_getStatus_coupling (b : CircuitBreaker) (now : Int) :
    ((b.getStatus now).1.canExecute = (b.canExecute now).1 ∧
     (b.getStatus now).2.1 = (b.canExecute now).2.1) ∧
    (b.state = CircuitState.OPEN →
      b.config.recoveryTimeout ≤ now - b.lastFailureTime →
      (b.getStatus now).2.1.state = CircuitState.HALF_OPEN) ∧
    (b.state ≠ CircuitState.OPEN → (b.getStatus now).2.1 = b) ∧
    (b.state = CircuitState.OPEN →
      now - b.lastFailureTime < b.config.recoveryTimeout →
      (b.getStatus now).2.1 = b) := by
  refine ⟨⟨rfl, rfl⟩, ?_, ?_, ?_⟩
  · intro hs hge
    have hr : b.shouldAttemptRecovery now = true := by
      simp [CircuitBreaker.shouldAttemptRecovery]
      omega
    simp [CircuitBreaker.getStatus, CircuitBreaker.canExecute,
      CircuitBreaker.transitionToHalfOpen, hs, hr]
  · intro hne
    cases hst : b.state with
    | CLOSED => simp [CircuitBreaker.getStatus, CircuitBreaker.canExecute, hst]
    | OPEN => exact absurd hst hne
    | HALF_OPEN => simp [CircuitBreaker.getStatus, CircuitBreaker.canExecute, hst]
  · intro hs hlt
    have hr : b.shouldAttemptRecovery now = false := by
      simp [CircuitBreaker.shouldAttemptRecovery]
      omega
    simp [CircuitBreaker.getStatus, CircuitBreaker.canExecute, hs, hr]

/-- C7 witness: the sample OPEN breaker transitions through getStatus at
1000, sits still at 999, and a fresh CLOSED breaker is untouched. -/
theorem C7_getStatus_coupling_witness :
    (sampleOpenBreaker.getStatus 1000).2.1.state = CircuitState.HALF_OPEN ∧
    (sampleOpenBreaker.getStatus 999).2.1 = sampleOpenBreaker ∧
    ((CircuitBreaker.new "c" sampleConfig).getStatus 0).2.1 =
      CircuitBreaker.new "c" sampleConfig :=
  ⟨(C7_getStatus_coupling sampleOpenBreaker 1000).2.1 rfl (by decide),
   (C7_getStatus_coupling sampleOpenBreaker 999).2.2.2 rfl (by decide),
   (C7_getStatus_coupling (CircuitBreaker.new "c" sampleConfig) 0).2.2.1
     (by decide)⟩

/-- C8: getBreaker is idempotent per name: a second call with the same name
returns the very breaker stored by the first call, leaves the registry map
unchanged, and ignores whatever config the second call supplies. -/
theorem C8_getBreaker_idempotent (m : CircuitBreakerManager)
    (agentName : String) (cfg1 cfg2 : Option CircuitBreakerConfig) :
    ((m.getBreaker agentName cfg1).2.getBreaker agentName cfg2).1 =
      (m.getBreaker agentName cfg1).1 ∧
    ((m.getBreaker agentName cfg1).2.getBreaker agentName cfg2).2 =
      (m.getBreaker agentName cfg1).2 := by
  cases hf : m.breakers.find? (fun q => q.1 == agentName) with
  | some p =>
      simp [CircuitBreakerManager.getBreaker, hf]
  | none =>
      have h1 : m.getBreaker agentName cfg1 =
          (CircuitBreaker.new agentName (cfg1.getD m.defaultConfig),
           { m with breakers := m.breakers ++
               [(agentName, CircuitBreaker.new agentName
                  (cfg1.getD m.defaultConfig))] }) := by
        simp [CircuitBreakerManager.getBreaker, hf]
      have hf2 : (m.breakers ++
            [(agentName, CircuitBreaker.new agentName
               (cfg1.getD m.defaultConfig))]).find?
            (fun q => q.1 == agentName) =
          some (agentName, CircuitBreaker.new agentName
            (cfg1.getD m.defaultConfig)) := by
        rw [find?_append_of_none _ _ _ hf]
        simp [List.find?]
      rw [h1]
      simp [CircuitBreakerManager.getBreaker, hf2]

/-- C10: getConfig returns a copy whose fields equal the stored
configuration and reading it has no effect on the breaker; no breaker
operation other than setConfig changes the stored configuration, and
setConfig changes nothing but the configuration. -/
theorem C10_getConfig_copy_frame (b : CircuitBreaker) (now : Int)
    (p : CircuitBreaker.PartialCircuitBreakerConfig) :
    b.getConfig = b.config ∧
    (b.canExecute now).2.1.config = b.config ∧
    (b.recordSuccess).1.config = b.config ∧
    (b.recordFailure now).1.config = b.config ∧
    (b.reset).1.config = b.config ∧
    (b.getStatus now).2.1.config = b.config ∧
    (b.setConfig p).state = b.state ∧
    (b.setConfig p).failureCount = b.failureCount ∧
    (b.setConfig p).successCount = b.successCount ∧
    (b.setConfig p).lastFailureTime = b.lastFailureTime ∧
    (b.setConfig p).halfOpenAttempts = b.halfOpenAttempts := by
  have hce : (b.canExecute now).2.1.config = b.config := by
    cases hst : b.state with
    | CLOSED => simp [CircuitBreaker.canExecute, hst]
    | OPEN =>
        cases hr : b.shouldAttemptRecovery now with
        | true =>
            simp [CircuitBreaker.canExecute,
              CircuitBreaker.transitionToHalfOpen, hst, hr]
        | false => simp [CircuitBreaker.canExecute, hst, hr]
    | HALF_OPEN => simp [CircuitBreaker.canExecute, hst]
  refine ⟨rfl, hce, ?_, ?_, by simp [CircuitBreaker.reset], ?_,
    rfl, rfl, rfl, rfl, rfl⟩
  · cases hst : b.state with
    | CLOSED => simp [CircuitBreaker.recordSuccess, hst]
    | OPEN => simp [CircuitBreaker.recordSuccess, hst]
    | HALF_OPEN =>
        simp [CircuitBreaker.recordSuccess,
          CircuitBreaker.transitionToClosed, hst]
  · cases hst : b.state with
    | CLOSED =>
        by_cases hth : b.config.failureThreshold ≤ b.failureCount + 1
        · simp [CircuitBreaker.recordFailure,
            CircuitBreaker.transitionToOpen, hst, hth]
        · simp [CircuitBreaker.recordFailure, hst, hth]
    | OPEN => simp [CircuitBreaker.recordFailure, hst]
    | HALF_OPEN =>
        simp [CircuitBreaker.recordFailure,
          CircuitBreaker.transitionToOpen, hst]
  · simpa [CircuitBreaker.getStatus] using hce
